import Mathlib

/-!
Formal model of the Crownstone light integration
(`homeassistant/components/crownstone/light.py`).

The development has two parts:

* Brightness scale conversion.  The source functions are
  `crownstone_state_to_hass(value) = int(numpy.interp(value, [0, 100], [0, 255]))`
  and
  `hass_to_crownstone_state(value) = int(numpy.interp(value, [0, 255], [0, 100]))`.
  With a two point grid, `numpy.interp` returns the boundary ordinate exactly
  when the query point equals a grid abscissa or lies beyond the right end;
  otherwise it returns the IEEE-754 double `fl(slope * x)` where
  `slope = fl((y1 - y0) / (x1 - x0))` (the additions of `x - x0 = x - 0.0` and
  `+ y0 = + 0.0` are exact).  We model the doubles exactly: a slope is a
  53-bit significand over a fixed power of two, the product is rounded to
  nearest, ties to even, at 53 significant bits, and `int()` truncates.

* Command dispatch.  `async_turn_on` / `async_turn_off` are modelled as pure
  functions from the channel environment (whether a USB handle is present and
  ready), an oracle giving the outcome of each possible channel call, and the
  current device state, to a result: the trace of performed effects, the new
  device state, and the outcome (normal return or a propagated exception).
-/

namespace Crownstone

/-- Round-to-nearest, ties-to-even, of a natural number to 53 significant
bits: the value an IEEE-754 double stores for an exact integer product.
All inputs arising in this development are below `2 ^ 61`. -/
def rne53 (n : ℕ) : ℕ :=
  if n < 2 ^ 53 then n
  else
    let s := ((List.range 16).filter fun k => 2 ^ 53 ≤ n / 2 ^ k).length
    let q := n / 2 ^ s
    let r := n % 2 ^ s
    let half := 2 ^ (s - 1)
    if half < r ∨ (r = half ∧ q % 2 = 1) then (q + 1) * 2 ^ s else q * 2 ^ s

/-- Round-to-nearest, ties-to-even, of the rational `a / b` to an integer:
used to obtain the 53-bit significand of a double division once the exact
quotient has been scaled into `[2 ^ 52, 2 ^ 53)`. -/
def rneDiv (a b : ℕ) : ℕ :=
  let q := a / b
  let r := a % b
  if b < 2 * r ∨ (2 * r = b ∧ q % 2 = 1) then q + 1 else q

/-- Significand of the double `fl(255 / 100)`, the slope `numpy.interp`
computes inside `crownstone_state_to_hass`; the represented value is
`slopeHassNum / 2 ^ 51`. -/
def slopeHassNum : ℕ := rneDiv (255 * 2 ^ 51) 100

/-- Significand of the double `fl(100 / 255)`, the slope `numpy.interp`
computes inside `hass_to_crownstone_state`; the represented value is
`slopeCrownstoneNum / 2 ^ 54`. -/
def slopeCrownstoneNum : ℕ := rneDiv (100 * 2 ^ 54) 255

/-- Model of `crownstone_state_to_hass` (light.py lines 76-78):
`int(numpy.interp(value, [0, 100], [0, 255]))`, Crownstone scale 0..100 to
hass scale 0..255.  For `value ≥ 100` interp returns the right ordinate 255
exactly; for `value = 0` it returns the matching grid ordinate 0 exactly;
otherwise it returns `fl(fl(255 / 100) * value)` and `int()` truncates. -/
def crownstone_state_to_hass (value : ℕ) : ℕ :=
  if 100 ≤ value then 255
  else if value = 0 then 0
  else rne53 (value * slopeHassNum) / 2 ^ 51

/-- Model of `hass_to_crownstone_state` (light.py lines 81-83):
`int(numpy.interp(value, [0, 255], [0, 100]))`, hass scale 0..255 to
Crownstone scale 0..100. -/
def hass_to_crownstone_state (value : ℕ) : ℕ :=
  if 255 ≤ value then 100
  else if value = 0 then 0
  else rne53 (value * slopeCrownstoneNum) / 2 ^ 54

/-- Model of the property `CrownstoneEntity.is_on` (light.py lines 118-121):
`crownstone_state_to_hass(self.device.state) > 0`, as a function of the
stored device state. -/
def is_on (state : ℕ) : Bool := 0 < crownstone_state_to_hass state

/-- Reference definition taken from the spec text, not from the code:
`round(a / b)` on nonnegative values, ties rounded up.  Used only to compare
the code with the spec sentence that claims rounding. -/
def specRound (a b : ℕ) : ℕ := (2 * a + b) / (2 * b)

theorem slopeHassNum_value : slopeHassNum = 5742089524897382 := by decide

theorem slopeCrownstoneNum_value : slopeCrownstoneNum = 7064470003718425 := by
  decide

set_option maxRecDepth 4000 in
/-- Helper: on its domain the modelled float computation coincides with exact
truncating division, `value * 255 / 100`. -/
theorem crownstone_state_to_hass_eq_floor :
    ∀ v ≤ 100, crownstone_state_to_hass v = v * 255 / 100 := by decide

set_option maxRecDepth 8000 in
/-- Helper: on its domain the modelled float computation coincides with exact
truncating division, `value * 100 / 255`. -/
theorem hass_to_crownstone_state_eq_floor :
    ∀ v ≤ 255, hass_to_crownstone_state v = v * 100 / 255 := by decide

/-- Exceptions the channel libraries can raise: `CrownstoneAbilityError`
(a required ability such as dimming is disabled), or transport failures
(network errors from the cloud client, serial errors from the UART). -/
inductive Err
  | ability
  | network
  | serial
deriving DecidableEq

/-- Channel environment of a `CrownstoneEntity`: whether `self.usb` is not
`None`, and what `self.usb.is_ready()` returns when queried. -/
structure Channels where
  usbPresent : Bool
  usbReady : Bool

/-- Outcome oracle: for each underlying channel operation, the result it
would produce if invoked — a normal return or the exception it raises.
The operations return no data to the caller, so a normal return carries
`Unit`; in particular no confirmation of the physical switch reaches the
component through these calls. -/
structure CallResults where
  usbDim : Except Err Unit
  usbSwitchOn : Except Err Unit
  usbSwitchOff : Except Err Unit
  cloudSetBrightness : Except Err Unit
  cloudTurnOn : Except Err Unit
  cloudTurnOff : Except Err Unit

/-- Observable effects performed by a command handler, in program order. -/
inductive Event
  | usbDim (level : ℕ)
  | usbSwitch (turnedOn : Bool)
  | cloudSetBrightness (level : ℕ)
  | cloudTurnOn
  | cloudTurnOff
  | setState (value : ℕ)
  | writeHaState
  | logError
deriving DecidableEq

/-- Result of running a command handler: the trace of effects, the device
state after the handler returns or raises, and the outcome seen by the
caller (normal return, or the exception that propagated). -/
structure CmdResult where
  events : List Event
  state : ℕ
  outcome : Except Err Unit

/-- Model of `CrownstoneEntity.async_turn_on` (light.py lines 173-209).
With `ATTR_BRIGHTNESS` in `kwargs` the whole branch sits in a
`try ... except CrownstoneAbilityError` block: the selected channel call is
made with the converted level; on normal return the device state is set to
that level and a state write is signalled; a `CrownstoneAbilityError` from
the call is logged and swallowed; any other exception propagates before the
state assignment.  The `try` block in the source wraps the if/else, so the
handling is written out once per selected channel here.  Without a
brightness argument the selected switch-on call is made with no exception
handler, then state is set to 100 and a state write signalled. -/
def async_turn_on (ch : Channels) (calls : CallResults) (st : ℕ)
    (brightness : Option ℕ) : CmdResult :=
  match brightness with
  | some b =>
      let level := hass_to_crownstone_state b
      if ch.usbPresent && ch.usbReady then
        match calls.usbDim with
        | Except.ok _ =>
            ⟨[Event.usbDim level, Event.setState level, Event.writeHaState],
              level, Except.ok ()⟩
        | Except.error Err.ability =>
            ⟨[Event.usbDim level, Event.logError], st, Except.ok ()⟩
        | Except.error e => ⟨[Event.usbDim level], st, Except.error e⟩
      else
        match calls.cloudSetBrightness with
        | Except.ok _ =>
            ⟨[Event.cloudSetBrightness level, Event.setState level,
                Event.writeHaState], level, Except.ok ()⟩
        | Except.error Err.ability =>
            ⟨[Event.cloudSetBrightness level, Event.logError], st, Except.ok ()⟩
        | Except.error e => ⟨[Event.cloudSetBrightness level], st, Except.error e⟩
  | none =>
      if ch.usbPresent && ch.usbReady then
        match calls.usbSwitchOn with
        | Except.ok _ =>
            ⟨[Event.usbSwitch true, Event.setState 100, Event.writeHaState],
              100, Except.ok ()⟩
        | Except.error e => ⟨[Event.usbSwitch true], st, Except.error e⟩
      else
        match calls.cloudTurnOn with
        | Except.ok _ =>
            ⟨[Event.cloudTurnOn, Event.setState 100, Event.writeHaState],
              100, Except.ok ()⟩
        | Except.error e => ⟨[Event.cloudTurnOn], st, Except.error e⟩

/-- Model of `CrownstoneEntity.async_turn_off` (light.py lines 211-223):
the selected switch-off call is made with no exception handler; on normal
return the state is set to 0 and a state write is signalled; any exception
propagates before the state assignment. -/
def async_turn_off (ch : Channels) (calls : CallResults) (st : ℕ) : CmdResult :=
  if ch.usbPresent && ch.usbReady then
    match calls.usbSwitchOff with
    | Except.ok _ =>
        ⟨[Event.usbSwitch false, Event.setState 0, Event.writeHaState],
          0, Except.ok ()⟩
    | Except.error e => ⟨[Event.usbSwitch false], st, Except.error e⟩
  else
    match calls.cloudTurnOff with
    | Except.ok _ =>
        ⟨[Event.cloudTurnOff, Event.setState 0, Event.writeHaState],
          0, Except.ok ()⟩
    | Except.error e => ⟨[Event.cloudTurnOff], st, Except.error e⟩

/-- Whether an event is a call on the local (USB dongle) channel. -/
def Event.isLocalCall : Event → Bool
  | Event.usbDim _ => true
  | Event.usbSwitch _ => true
  | _ => false

/-- Whether an event is a call on the remote (cloud) channel. -/
def Event.isRemoteCall : Event → Bool
  | Event.cloudSetBrightness _ => true
  | Event.cloudTurnOn => true
  | Event.cloudTurnOff => true
  | _ => false

/-- Whether an event is the state-changed signal `async_write_ha_state`. -/
def Event.isWrite : Event → Bool
  | Event.writeHaState => true
  | _ => false

/-- Whether an event is a `_LOGGER.error` call. -/
def Event.isLog : Event → Bool
  | Event.logError => true
  | _ => false

/-- A command result used the local channel. -/
def usedLocal (res : CmdResult) : Bool := res.events.any Event.isLocalCall

/-- A command result used the remote channel. -/
def usedRemote (res : CmdResult) : Bool := res.events.any Event.isRemoteCall

/-- A command result signalled a state write to the host platform. -/
def wroteHaState (res : CmdResult) : Bool := res.events.any Event.isWrite

/-- A command result logged an error. -/
def loggedError (res : CmdResult) : Bool := res.events.any Event.isLog

/-- The channel call `async_turn_on` makes, as selected by the code:
with a brightness argument the dim operation of the selected channel,
without one the switch-on operation of the selected channel. -/
def selectedTurnOnCall (ch : Channels) (calls : CallResults)
    (brightness : Option ℕ) : Except Err Unit :=
  match brightness with
  | some _ =>
      if ch.usbPresent && ch.usbReady then calls.usbDim
      else calls.cloudSetBrightness
  | none =>
      if ch.usbPresent && ch.usbReady then calls.usbSwitchOn
      else calls.cloudTurnOn

/-- The channel call `async_turn_off` makes. -/
def selectedTurnOffCall (ch : Channels) (calls : CallResults) :
    Except Err Unit :=
  if ch.usbPresent && ch.usbReady then calls.usbSwitchOff
  else calls.cloudTurnOff

/-- C1: every command (turn on with or without a brightness argument, turn
off) uses the local USB channel exactly when the handle is present and its
readiness check returns true, and uses the remote cloud channel exactly
otherwise; in particular a present but unready handle sends turn off over
the remote path. -/
theorem channel_selection (ch : Channels) (calls : CallResults) (st : ℕ)
    (b : Option ℕ) :
    usedLocal (async_turn_on ch calls st b) = (ch.usbPresent && ch.usbReady)
    ∧ usedRemote (async_turn_on ch calls st b) = !(ch.usbPresent && ch.usbReady)
    ∧ usedLocal (async_turn_off ch calls st) = (ch.usbPresent && ch.usbReady)
    ∧ usedRemote (async_turn_off ch calls st) = !(ch.usbPresent && ch.usbReady) := by
  obtain ⟨p, r⟩ := ch
  refine ⟨?_, ?_, ?_, ?_⟩ <;>
    cases p <;> cases r <;>
      rcases b with _ | b <;>
        simp [async_turn_on, async_turn_off, usedLocal, usedRemote] <;>
        (try split) <;>
        simp_all [Event.isLocalCall, Event.isRemoteCall]

/-- C2 counterexample: the conversions do not round to nearest.  At input 1
the code computes `int(fl(fl(255 / 100) * 1)) = int(2.5499...) = 2`, while
the spec reference `round(1 * 255 / 100) = 3`. -/
theorem conversion_not_round_counterexample :
    crownstone_state_to_hass 1 = 2 ∧ specRound (1 * 255) 100 = 3
    ∧ crownstone_state_to_hass 1 ≠ specRound (1 * 255) 100 := by decide

/-- C2 amended: the conversions truncate rather than round: for `v` in
[0, 100] the internal-to-external conversion returns `⌊v * 255 / 100⌋` and
for `v` in [0, 255] the external-to-internal conversion returns
`⌊v * 100 / 255⌋`. -/
theorem conversions_truncate :
    (∀ v ≤ 100, crownstone_state_to_hass v = v * 255 / 100)
    ∧ (∀ v ≤ 255, hass_to_crownstone_state v = v * 100 / 255) :=
  ⟨crownstone_state_to_hass_eq_floor, hass_to_crownstone_state_eq_floor⟩

/-- C2 witness: the amended statement evaluated at 7 and at 130. -/
theorem conversions_truncate_witness :
    crownstone_state_to_hass 7 = 7 * 255 / 100
    ∧ hass_to_crownstone_state 130 = 130 * 100 / 255 :=
  ⟨conversions_truncate.1 7 (by decide), conversions_truncate.2 130 (by decide)⟩

/-- C3 counterexample: the external round trip is not within 1 everywhere:
at 5, `hass_to_crownstone_state 5 = 1` and `crownstone_state_to_hass 1 = 2`,
a distance of 3 from the input. -/
theorem roundtrip_external_counterexample :
    hass_to_crownstone_state 5 = 1
    ∧ crownstone_state_to_hass (hass_to_crownstone_state 5) = 2
    ∧ 1 < Nat.dist (crownstone_state_to_hass (hass_to_crownstone_state 5)) 5 := by
  decide

set_option maxRecDepth 8000 in
/-- C3 amended: for every `v` in [0, 255] the external round trip
`crownstone_state_to_hass (hass_to_crownstone_state v)` never exceeds `v`
and differs from `v` by at most 3. -/
theorem roundtrip_external_within_three :
    ∀ v ≤ 255, crownstone_state_to_hass (hass_to_crownstone_state v) ≤ v
      ∧ Nat.dist (crownstone_state_to_hass (hass_to_crownstone_state v)) v ≤ 3 := by
  decide

/-- C3 witness: the amended statement evaluated at 5, where the bound 3 is
attained. -/
theorem roundtrip_external_within_three_witness :
    crownstone_state_to_hass (hass_to_crownstone_state 5) ≤ 5
    ∧ Nat.dist (crownstone_state_to_hass (hass_to_crownstone_state 5)) 5 ≤ 3 :=
  roundtrip_external_within_three 5 (by decide)

set_option maxRecDepth 4000 in
/-- C4: for every `v` in [0, 100] the internal round trip
`hass_to_crownstone_state (crownstone_state_to_hass v)` differs from `v` by
at most 1. -/
theorem roundtrip_internal_within_one :
    ∀ v ≤ 100,
      Nat.dist (hass_to_crownstone_state (crownstone_state_to_hass v)) v ≤ 1 := by
  decide

/-- C4 witness: the round trip evaluated at 1, where the distance is 1. -/
theorem roundtrip_internal_within_one_witness :
    Nat.dist (hass_to_crownstone_state (crownstone_state_to_hass 1)) 1 ≤ 1 :=
  roundtrip_internal_within_one 1 (by decide)

/-- C5: the conversions are exact at the grid endpoints. -/
theorem endpoint_exact :
    crownstone_state_to_hass 0 = 0 ∧ crownstone_state_to_hass 100 = 255
    ∧ hass_to_crownstone_state 0 = 0 ∧ hass_to_crownstone_state 255 = 100 := by
  decide

/-- C6: with no local channel handle, turn on without an explicit brightness
invokes the remote turn-on operation, then sets the device state to 100 and
signals a state write, returning normally. -/
theorem turn_on_remote_default_brightness (calls : CallResults) (st : ℕ)
    (r : Bool) (h : calls.cloudTurnOn = Except.ok ()) :
    async_turn_on ⟨false, r⟩ calls st none =
      ⟨[Event.cloudTurnOn, Event.setState 100, Event.writeHaState], 100,
        Except.ok ()⟩ := by
  simp [async_turn_on, h]

/-- C6 witness: the statement at a concrete oracle and state. -/
theorem turn_on_remote_default_brightness_witness :
    async_turn_on ⟨false, false⟩
        ⟨Except.ok (), Except.ok (), Except.ok (), Except.ok (), Except.ok (),
          Except.ok ()⟩ 0 none =
      ⟨[Event.cloudTurnOn, Event.setState 100, Event.writeHaState], 100,
        Except.ok ()⟩ :=
  turn_on_remote_default_brightness _ 0 false rfl

/-- C7: when the remote channel is selected and the remote brightness-set
call raises `CrownstoneAbilityError`, the error is caught and logged, the
device state is unchanged, no state write is signalled, and the handler
returns normally. -/
theorem set_brightness_ability_error_swallowed (ch : Channels)
    (calls : CallResults) (st b : ℕ)
    (hch : (ch.usbPresent && ch.usbReady) = false)
    (herr : calls.cloudSetBrightness = Except.error Err.ability) :
    (async_turn_on ch calls st (some b)).state = st
    ∧ wroteHaState (async_turn_on ch calls st (some b)) = false
    ∧ loggedError (async_turn_on ch calls st (some b)) = true
    ∧ (async_turn_on ch calls st (some b)).outcome = Except.ok () := by
  simp [async_turn_on, hch, herr, wroteHaState, loggedError, Event.isWrite,
    Event.isLog]

/-- C7 witness: the statement at a concrete environment, with the cloud
brightness call raising the ability error. -/
theorem set_brightness_ability_error_swallowed_witness :
    (async_turn_on ⟨true, false⟩
        ⟨Except.ok (), Except.ok (), Except.ok (),
          Except.error Err.ability, Except.ok (), Except.ok ()⟩ 42
        (some 128)).state = 42
    ∧ wroteHaState (async_turn_on ⟨true, false⟩
        ⟨Except.ok (), Except.ok (), Except.ok (),
          Except.error Err.ability, Except.ok (), Except.ok ()⟩ 42
        (some 128)) = false
    ∧ loggedError (async_turn_on ⟨true, false⟩
        ⟨Except.ok (), Except.ok (), Except.ok (),
          Except.error Err.ability, Except.ok (), Except.ok ()⟩ 42
        (some 128)) = true
    ∧ (async_turn_on ⟨true, false⟩
        ⟨Except.ok (), Except.ok (), Except.ok (),
          Except.error Err.ability, Except.ok (), Except.ok ()⟩ 42
        (some 128)).outcome = Except.ok () :=
  set_brightness_ability_error_swallowed ⟨true, false⟩
    ⟨Except.ok (), Except.ok (), Except.ok (), Except.error Err.ability,
      Except.ok (), Except.ok ()⟩ 42 128 rfl rfl

/-- C8: every channel failure other than the ability error — a network or
serial error raised by the call a command selects — is not caught: the
handler propagates exactly that exception to the caller, for turn on (with
or without brightness) and for turn off. -/
theorem non_ability_errors_propagate (ch : Channels) (calls : CallResults)
    (st : ℕ) (b : Option ℕ) (e : Err) (he : e ≠ Err.ability) :
    (selectedTurnOnCall ch calls b = Except.error e →
        (async_turn_on ch calls st b).outcome = Except.error e)
    ∧ (selectedTurnOffCall ch calls = Except.error e →
        (async_turn_off ch calls st).outcome = Except.error e) := by
  obtain ⟨p, r⟩ := ch
  constructor <;>
    intro h <;>
      cases p <;> cases r <;>
        rcases b with _ | b <;>
          simp [selectedTurnOnCall, selectedTurnOffCall] at h <;>
          cases e <;>
            first
            | exact absurd rfl he
            | simp [async_turn_on, async_turn_off, h]

/-- C8 witness: a network error from the selected call propagates out of
both handlers at a concrete environment. -/
theorem non_ability_errors_propagate_witness :
    (async_turn_on ⟨true, true⟩
        ⟨Except.error Err.network, Except.error Err.network,
          Except.error Err.network, Except.error Err.network,
          Except.error Err.network, Except.error Err.network⟩ 7
        (some 10)).outcome = Except.error Err.network
    ∧ (async_turn_off ⟨true, true⟩
        ⟨Except.error Err.network, Except.error Err.network,
          Except.error Err.network, Except.error Err.network,
          Except.error Err.network, Except.error Err.network⟩ 7).outcome =
      Except.error Err.network :=
  ⟨(non_ability_errors_propagate ⟨true, true⟩
      ⟨Except.error Err.network, Except.error Err.network,
        Except.error Err.network, Except.error Err.network,
        Except.error Err.network, Except.error Err.network⟩ 7 (some 10)
      Err.network (by simp)).1 rfl,
    (non_ability_errors_propagate ⟨true, true⟩
      ⟨Except.error Err.network, Except.error Err.network,
        Except.error Err.network, Except.error Err.network,
        Except.error Err.network, Except.error Err.network⟩ 7 (some 10)
      Err.network (by simp)).2 rfl⟩

/-- C9: whenever a command's selected channel call returns (the call carries
no confirmation of the physical switch), the device state is written
immediately: to the converted level for a brightness command, to 100 for
turn on, and to 0 for turn off, each followed by a state write signal. -/
theorem optimistic_state_update (ch : Channels) (calls : CallResults)
    (st b : ℕ) :
    (selectedTurnOnCall ch calls (some b) = Except.ok () →
        (async_turn_on ch calls st (some b)).state = hass_to_crownstone_state b
        ∧ wroteHaState (async_turn_on ch calls st (some b)) = true)
    ∧ (selectedTurnOnCall ch calls none = Except.ok () →
        (async_turn_on ch calls st none).state = 100
        ∧ wroteHaState (async_turn_on ch calls st none) = true)
    ∧ (selectedTurnOffCall ch calls = Except.ok () →
        (async_turn_off ch calls st).state = 0
        ∧ wroteHaState (async_turn_off ch calls st) = true) := by
  obtain ⟨p, r⟩ := ch
  refine ⟨?_, ?_, ?_⟩ <;>
    intro h <;>
      cases p <;> cases r <;>
        simp [selectedTurnOnCall, selectedTurnOffCall] at h <;>
        simp [async_turn_on, async_turn_off, h, wroteHaState, Event.isWrite]

/-- C9 witness: the statement at a concrete environment whose calls all
return normally. -/
theorem optimistic_state_update_witness :
    (async_turn_on ⟨false, true⟩
        ⟨Except.ok (), Except.ok (), Except.ok (), Except.ok (), Except.ok (),
          Except.ok ()⟩ 3 (some 128)).state = hass_to_crownstone_state 128
    ∧ wroteHaState (async_turn_on ⟨false, true⟩
        ⟨Except.ok (), Except.ok (), Except.ok (), Except.ok (), Except.ok (),
          Except.ok ()⟩ 3 (some 128)) = true
    ∧ (async_turn_off ⟨false, true⟩
        ⟨Except.ok (), Except.ok (), Except.ok (), Except.ok (), Except.ok (),
          Except.ok ()⟩ 3).state = 0
    ∧ wroteHaState (async_turn_off ⟨false, true⟩
        ⟨Except.ok (), Except.ok (), Except.ok (), Except.ok (), Except.ok (),
          Except.ok ()⟩ 3) = true :=
  ⟨((optimistic_state_update ⟨false, true⟩
      ⟨Except.ok (), Except.ok (), Except.ok (), Except.ok (), Except.ok (),
        Except.ok ()⟩ 3 128).1 rfl).1,
    ((optimistic_state_update ⟨false, true⟩
      ⟨Except.ok (), Except.ok (), Except.ok (), Except.ok (), Except.ok (),
        Except.ok ()⟩ 3 128).1 rfl).2,
    ((optimistic_state_update ⟨false, true⟩
      ⟨Except.ok (), Except.ok (), Except.ok (), Except.ok (), Except.ok (),
        Except.ok ()⟩ 3 128).2.2 rfl).1,
    ((optimistic_state_update ⟨false, true⟩
      ⟨Except.ok (), Except.ok (), Except.ok (), Except.ok (), Except.ok (),
        Except.ok ()⟩ 3 128).2.2 rfl).2⟩

set_option maxRecDepth 4000 in
/-- C10: for every stored state value in [0, 100], the entity reports itself
on exactly when the stored state is strictly positive. -/
theorem is_on_iff_state_pos : ∀ s ≤ 100, (is_on s = true ↔ 0 < s) := by
  decide

/-- C10 witness: the statement evaluated at state 1. -/
theorem is_on_iff_state_pos_witness : is_on 1 = true ↔ 0 < 1 :=
  is_on_iff_state_pos 1 (by decide)

end Crownstone
